import Mathlib

/-!
Verification of the Finance Ledger Engine (`services/finance_service.py`).

The relational state touched by the engine is embedded as a `DBState` record of
tables (association lists), Python `Decimal` values are embedded as `ℚ`, and
each service method is embedded as a pure function on `DBState`.  A method body
that runs inside `PyMySQLAdapter.begin()` is modelled as an `Except`-valued
function: an error corresponds to an exception raised inside the transaction,
which `begin()` answers with a rollback (the caller keeps the pre-transaction
state) before re-raising.  Methods that catch all exceptions and return
`False` (e.g. `refund_order`, `audit_and_distribute_rewards`, `set_referrer`)
are modelled as total functions returning `Bool × DBState`, built on top of the
`Except`-valued transaction body.
-/

attribute [local semireducible] Rat.add Rat.sub Rat.mul Rat.inv Rat.ofScientific

set_option maxRecDepth 8192

/-- Modelled from the spec: `core.config` is not part of the sources; the spec
says the platform merchant id is injected, immutable configuration.  The
order-split helpers in `finance_service.py` address the merchant row as
`users.id = 1`, so we fix the platform merchant id at 1. -/
def PLATFORM_MERCHANT_ID : Nat := 1

/-- Modelled from the spec: `core.config` is not part of the sources; the spec
(§4.2 step 2) fixes the membership purchase rate limit at 2 per 24 hours, and
the error message in `settle_order` says "最多2份" (at most 2). -/
def MAX_PURCHASE_PER_DAY : Nat := 2

/-- Modelled from the spec: `core.config` is not part of the sources; the
points-discount rate is injected configuration with no value given in the spec,
so we fix a representative positive rate of 0.1 currency per point. -/
def POINTS_DISCOUNT_RATE : ℚ := 1/10

/-- Modelled from the spec: `core.config` is not part of the sources; the spec
scenario (§8) prices the membership product at ¥100. -/
def MEMBER_PRODUCT_PRICE : ℚ := 100

/-- Modelled from the spec: `core.config` is not part of the sources.  The spec
(§4.2 step 6) gives the pool allocation table: platform revenue 80% of the
total, and of the remaining 20%: public welfare 1%, maintenance 1%, subsidy
12%, director 2%, community shop 1%, city 1%, branch 0.5%, development fund
1.5% (fractions of the total, summing to 20%).  `AllocationKey.value` strings
follow the account types used elsewhere in `finance_service.py`. -/
def ALLOCATIONS : List (String × ℚ) :=
  [("platform_revenue_pool", 80/100),
   ("public_welfare", 1/100),
   ("maintain_pool", 1/100),
   ("subsidy_pool", 12/100),
   ("director_pool", 2/100),
   ("shop_pool", 1/100),
   ("city_pool", 1/100),
   ("branch_pool", 5/1000),
   ("fund_pool", 15/1000)]

/-- A row of the `users` table (the columns the finance service touches).
`member_points` and `merchant_points` are DECIMAL(12,4) in the schema, so all
balance-like columns are embedded as `ℚ`. -/
structure UserRow where
  id : Nat
  member_level : Nat
  member_points : ℚ
  promotion_balance : ℚ
  merchant_balance : ℚ
  merchant_points : ℚ
deriving Repr, DecidableEq

/-- The product information `settle_order` reads: `p.is_member_product`,
`p.user_id` (the merchant) and `COALESCE(ps.price, p.price)`; the query filters
`p.status = 1`. -/
structure ProductRow where
  id : Nat
  status : Nat
  is_member_product : Bool
  user_id : Nat
  price : Option ℚ
deriving Repr, DecidableEq

/-- A row of the `orders` table.  `status` and `refund_status` are distinct
columns: `refund_order` checks `status` but writes `refund_status`.
`created_at` is a timestamp in hours, used by the 24-hour purchase limit. -/
structure OrderRow where
  id : Nat
  order_number : String
  user_id : Nat
  merchant_id : Nat
  total_amount : ℚ
  original_amount : ℚ
  points_discount : ℚ
  is_member_order : Bool
  status : String
  refund_status : String
  created_at : Nat
deriving Repr, DecidableEq

/-- A row of the `order_items` table. -/
structure OrderItemRow where
  order_id : Nat
  product_id : Nat
  quantity : Nat
  unit_price : ℚ
  total_price : ℚ
deriving Repr, DecidableEq

/-- A row of the `pending_rewards` table. -/
structure PendingRewardRow where
  id : Nat
  user_id : Nat
  reward_type : String
  amount : ℚ
  order_id : Nat
  layer : Option Nat
  status : String
deriving Repr, DecidableEq

/-- A row of the `team_rewards` table read back by `refund_order`. -/
structure TeamRewardRow where
  order_id : Nat
  user_id : Nat
  reward_amount : ℚ
deriving Repr, DecidableEq

/-- A row of the append-only `account_flow` audit table. -/
structure AccountFlowRow where
  account_type : String
  related_user : Option Nat
  change_amount : ℚ
  balance_after : ℚ
  flow_type : String
  remark : String
deriving Repr, DecidableEq

/-- A row of the append-only `points_log` audit table. -/
structure PointsLogRow where
  user_id : Nat
  change_amount : ℚ
  balance_after : ℚ
  log_type : String
  reason : String
  related_order : Option Nat
deriving Repr, DecidableEq

/-- A row of the `coupons` table. -/
structure CouponRow where
  id : Nat
  user_id : Nat
  coupon_type : String
  amount : ℚ
deriving Repr, DecidableEq

/-- A row of the `user_referrals` table: the directed referral edge. -/
structure ReferralRow where
  user_id : Nat
  referrer_id : Nat
deriving Repr, DecidableEq

/-- The relational state touched by the finance service.  `finance_accounts`
maps `account_type` to `balance`; `next_id` supplies auto-increment ids; `now`
is the current time in hours. -/
structure DBState where
  users : List UserRow
  products : List ProductRow
  orders : List OrderRow
  order_items : List OrderItemRow
  finance_accounts : List (String × ℚ)
  user_referrals : List ReferralRow
  pending_rewards : List PendingRewardRow
  team_rewards : List TeamRewardRow
  account_flow : List AccountFlowRow
  points_log : List PointsLogRow
  coupons : List CouponRow
  next_id : Nat
  now : Nat
deriving Repr, DecidableEq

/-- The exception kinds of `core.exceptions` that the finance service raises. -/
inductive FinErr where
  | orderErr (msg : String)
  | financeErr (msg : String)
  | insufficientBalance (account : String) (required balance : ℚ)
deriving Repr, DecidableEq

/-- Propositional equality on `Except` results is decidable when both payload
types have decidable equality (needed to evaluate theorems about
`Except`-valued transaction bodies on concrete states). -/
instance {ε α : Type} [DecidableEq ε] [DecidableEq α] : DecidableEq (Except ε α) := fun x y =>
  match x, y with
  | .ok a, .ok b => decidable_of_iff (a = b) (by simp)
  | .error e, .error f => decidable_of_iff (e = f) (by simp)
  | .ok _, .error _ => isFalse (fun h => Except.noConfusion h)
  | .error _, .ok _ => isFalse (fun h => Except.noConfusion h)

/-- SELECT a user row by id. -/
def findUser (s : DBState) (uid : Nat) : Option UserRow :=
  s.users.find? (fun u => u.id == uid)

/-- UPDATE a single user row by id (no-op when the row is absent, like an SQL
UPDATE matching zero rows). -/
def updateUserRow (s : DBState) (uid : Nat) (f : UserRow → UserRow) : DBState :=
  { s with users := s.users.map (fun u => if u.id == uid then f u else u) }

/-- Read one of the dynamic balance columns of a user row (the trusted field
names accepted by `_update_user_balance` and `get_user_balance`). -/
def getUserField (u : UserRow) (field : String) : ℚ :=
  if field == "member_points" then u.member_points
  else if field == "merchant_points" then u.merchant_points
  else if field == "promotion_balance" then u.promotion_balance
  else if field == "merchant_balance" then u.merchant_balance
  else 0

/-- Write one of the dynamic balance columns of a user row. -/
def setUserField (u : UserRow) (field : String) (v : ℚ) : UserRow :=
  if field == "member_points" then { u with member_points := v }
  else if field == "merchant_points" then { u with merchant_points := v }
  else if field == "promotion_balance" then { u with promotion_balance := v }
  else if field == "merchant_balance" then { u with merchant_balance := v }
  else u

/-- `get_account_balance`: pool balance by `account_type`, `0` when the row is
absent (the source degrades to zero instead of raising). -/
def get_account_balance (s : DBState) (account_type : String) : ℚ :=
  match s.finance_accounts.find? (fun p => p.1 == account_type) with
  | some p => p.2
  | none => 0

/-- `get_user_balance`: a user balance column, `0` when the row is absent. -/
def get_user_balance (s : DBState) (uid : Nat) (balance_type : String) : ℚ :=
  match findUser s uid with
  | some u => getUserField u balance_type
  | none => 0

/-- `_get_balance_after`: the value recorded in an `account_flow` row.  For
`promotion_balance`/`merchant_balance` with a (truthy) related user it reads
that user's column, otherwise the pool balance. -/
def get_balance_after (s : DBState) (account_type : String)
    (related_user : Option Nat) : ℚ :=
  match related_user with
  | some uid =>
    if uid ≠ 0 ∧ (account_type == "promotion_balance" ∨ account_type == "merchant_balance") then
      get_user_balance s uid account_type
    else get_account_balance s account_type
  | none => get_account_balance s account_type

/-- `_insert_account_flow`: append one audit row, recomputing `balance_after`
via `_get_balance_after`. -/
def insert_account_flow (s : DBState) (account_type : String)
    (related_user : Option Nat) (change_amount : ℚ)
    (flow_type remark : String) : DBState :=
  { s with account_flow := s.account_flow ++
      [⟨account_type, related_user, change_amount,
        get_balance_after s account_type related_user, flow_type, remark⟩] }

/-- `_insert_points_log`: append one points audit row. -/
def insert_points_log (s : DBState) (uid : Nat) (change_amount balance_after : ℚ)
    (log_type reason : String) (related_order : Option Nat) : DBState :=
  { s with points_log := s.points_log ++
      [⟨uid, change_amount, balance_after, log_type, reason, related_order⟩] }

/-- `_add_pool_balance`: add `amount` to a pool account (UPDATE matching zero
rows when the account is absent) and record exactly one flow row whose
`flow_type` is `income` for a non-negative amount, `expense` otherwise. -/
def add_pool_balance (s : DBState) (account_type : String) (amount : ℚ)
    (remark : String) (related_user : Option Nat := none) : DBState :=
  let s1 := { s with finance_accounts :=
    s.finance_accounts.map (fun p => if p.1 == account_type then (p.1, p.2 + amount) else p) }
  insert_account_flow s1 account_type related_user amount
    (if amount ≥ 0 then "income" else "expense") remark

/-- `_update_user_balance`: `field = COALESCE(field,0) + delta` on the user
row, returning the freshly re-read value (`0` when the row is absent). -/
def update_user_balance (s : DBState) (uid : Nat) (field : String) (delta : ℚ) :
    DBState × ℚ :=
  let s1 := updateUserRow s uid (fun u => setUserField u field (getUserField u field + delta))
  (s1, get_user_balance s1 uid field)

/-- Read the buyer's referral edge; Python treats a `0` referrer id as falsy
(`if not ref.referrer_id`), so it is mapped to `none`. -/
def lookupReferrer (refs : List ReferralRow) (uid : Nat) : Option Nat :=
  match refs.find? (fun r => r.user_id == uid) with
  | some r => if r.referrer_id == 0 then none else some r.referrer_id
  | none => none

/-- `check_purchase_limit`: count this user's membership orders of the trailing
24 hours whose `status` is not `refunded`, and compare with the limit. -/
def check_purchase_limit (s : DBState) (uid : Nat) : Bool :=
  (s.orders.filter (fun o =>
      o.user_id == uid && o.is_member_order &&
      decide (s.now ≤ o.created_at + 24) && o.status != "refunded")).length
    < MAX_PURCHASE_PER_DAY

/-- The product row `settle_order` resolves (it filters `p.status = 1`). -/
def findProduct (s : DBState) (pid : Nat) : Option ProductRow :=
  s.products.find? (fun p => p.id == pid && p.status == 1)

/-- `_apply_points_discount`: verify sufficient `member_points` and the 50%
cap (`points_to_use > amount * 0.5 / POINTS_DISCOUNT_RATE` fails), then debit
the user's `member_points` and credit the `company_points` pool by the same
raw point quantity.  The source performs both UPDATEs with no `points_log` and
no `account_flow` insert. -/
def apply_points_discount (s : DBState) (uid : Nat) (user_points points_to_use amount : ℚ) :
    Except FinErr DBState :=
  if user_points < points_to_use then
    .error (.orderErr "积分不足")
  else if points_to_use > amount * (1/2) / POINTS_DISCOUNT_RATE then
    .error (.orderErr "积分抵扣不能超过订单金额的50%")
  else
    let s1 := updateUserRow s uid (fun u => { u with member_points := u.member_points - points_to_use })
    .ok { s1 with finance_accounts :=
      s1.finance_accounts.map (fun p => if p.1 == "company_points" then (p.1, p.2 + points_to_use) else p) }

/-- `_create_order`: insert the order (status `completed`, fresh
`refund_status`) and one order item (the source inserts a literal quantity of
1), returning `lastrowid`. -/
def create_order (s : DBState) (order_no : String) (uid merchant_id product_id : Nat)
    (total_amount original_amount points_discount : ℚ) (is_member : Bool) :
    DBState × Nat :=
  let oid := s.next_id
  ({ s with
     orders := s.orders ++
       [⟨oid, order_no, uid, merchant_id, total_amount, original_amount,
         points_discount, is_member, "completed", "", s.now⟩],
     order_items := s.order_items ++ [⟨oid, product_id, 1, original_amount, original_amount⟩],
     next_id := s.next_id + 1 }, oid)

/-- The body of the allocation loop in `_allocate_funds_to_pools`, which skips
the `platform_revenue_pool` entry. -/
def allocMemberStep (oid : Nat) (total : ℚ) (s : DBState) (p : String × ℚ) : DBState :=
  if p.1 == "platform_revenue_pool" then s
  else add_pool_balance s p.1 (total * p.2) ("订单#" ++ toString oid ++ " 分配到" ++ p.1)

/-- `_allocate_funds_to_pools`: credit 80% to `platform_revenue_pool`, then
each configured pool share of the total (skipping the platform entry). -/
def allocate_funds_to_pools (s : DBState) (oid : Nat) (total : ℚ) : DBState :=
  let s1 := add_pool_balance s "platform_revenue_pool" (total * (80/100))
    ("订单#" ++ toString oid ++ " 平台收入")
  ALLOCATIONS.foldl (allocMemberStep oid total) s1

/-- The `target_referrer` walk of `_create_pending_rewards`: up to `n` hops up
the referral chain, remembering the last referrer found; an early chain end
leaves the accumulator (the deepest referrer reached) in place. -/
def walkChain (refs : List ReferralRow) : Nat → Nat → Option Nat → Option Nat
  | 0, _, acc => acc
  | n + 1, cur, acc =>
    match lookupReferrer refs cur with
    | none => acc
    | some r => walkChain refs n r (some r)

/-- The referral-reward half of `_create_pending_rewards`: when the buyer's
old level was 0 and a (truthy) referrer exists, insert a `referral`-type
pending reward for the direct referrer. -/
def referralRewardPart (s : DBState) (oid buyer old_level : Nat) : DBState :=
  if old_level == 0 then
    match lookupReferrer s.user_referrals buyer with
    | some rid =>
      { s with
        pending_rewards := s.pending_rewards ++
          [⟨s.next_id, rid, "referral", MEMBER_PRODUCT_PRICE * (1/2), oid, none, "pending"⟩],
        next_id := s.next_id + 1 }
    | none => s
  else s

/-- The team-reward half of `_create_pending_rewards`: walk `new_level` hops
(keeping the deepest referrer reached) and insert a `team` reward with
`layer = new_level` when the walk found someone whose own level is at least
`new_level`. -/
def teamRewardPart (s1 : DBState) (oid buyer new_level : Nat) : DBState :=
  match walkChain s1.user_referrals new_level buyer none with
  | none => s1
  | some target =>
    let referrer_level := match findUser s1 target with
      | some u => u.member_level
      | none => 0
    if referrer_level ≥ new_level then
      { s1 with
        pending_rewards := s1.pending_rewards ++
          [⟨s1.next_id, target, "team", MEMBER_PRODUCT_PRICE * (1/2), oid, some new_level, "pending"⟩],
        next_id := s1.next_id + 1 }
    else s1

/-- `_create_pending_rewards`: a `referral` reward for the direct referrer when
the old level was 0; no team reward on the 0→1 special case; otherwise the
team-reward walk runs on the state left by the referral half. -/
def create_pending_rewards (s : DBState) (oid buyer old_level new_level : Nat) : DBState :=
  let s1 := referralRewardPart s oid buyer old_level
  if old_level == 0 && new_level == 1 then s1
  else teamRewardPart s1 oid buyer new_level

/-- `_process_member_order`: pool allocation of the full amount, level raise to
`min(old_level + quantity, 6)`, `member_points` grant with its points log,
pending rewards, and a 20% `company_points` pool credit. -/
def process_member_order (s : DBState) (oid uid old_level : Nat)
    (unit_price : ℚ) (quantity : Nat) : DBState :=
  let total := unit_price * quantity
  let s1 := allocate_funds_to_pools s oid total
  let new_level := min (old_level + quantity) 6
  let s2 := updateUserRow s1 uid (fun u => { u with member_level := new_level })
  let points_earned := unit_price * quantity
  let (s3, new_points) := update_user_balance s2 uid "member_points" points_earned
  let s4 := insert_points_log s3 uid points_earned new_points "member"
    "购买会员商品获得积分" (some oid)
  let s5 := create_pending_rewards s4 oid uid old_level new_level
  add_pool_balance s5 "company_points" (total * (20/100))
    ("订单#" ++ toString oid ++ " 公司积分分配")

/-- The body of the allocation loop in `_process_normal_order` for a
platform-merchant order; unlike the member-order loop it does not skip the
`platform_revenue_pool` entry. -/
def allocNormalStep (oid uid : Nat) (final : ℚ) (s : DBState) (p : String × ℚ) : DBState :=
  add_pool_balance s p.1 (final * p.2) ("订单#" ++ toString oid ++ " 分配到" ++ p.1) (some uid)

/-- `_process_normal_order`: for a non-platform merchant the 80% merchant
credit is commented out in the source (only a debug log runs); for the
platform merchant the 80% goes to `platform_revenue_pool` followed by the full
allocation table.  Buyers of level ≥ 1 earn `member_points`; non-platform
merchants earn 20% `merchant_points`. -/
def process_normal_order (s : DBState) (oid uid merchant_id : Nat)
    (final_amount : ℚ) (member_level : Nat) : DBState :=
  let s1 :=
    if merchant_id ≠ PLATFORM_MERCHANT_ID then
      s
    else
      let sa := add_pool_balance s "platform_revenue_pool" (final_amount * (80/100))
        ("平台自营商品收入 - 订单#" ++ toString oid)
      ALLOCATIONS.foldl (allocNormalStep oid uid final_amount) sa
  let s2 :=
    if member_level ≥ 1 then
      let r := update_user_balance s1 uid "member_points" final_amount
      insert_points_log r.1 uid final_amount r.2 "member" "购买获得积分" (some oid)
    else s1
  if merchant_id ≠ PLATFORM_MERCHANT_ID ∧ final_amount * (20/100) > 0 then
    let r := update_user_balance s2 merchant_id "merchant_points" (final_amount * (20/100))
    insert_points_log r.1 merchant_id (final_amount * (20/100)) r.2 "merchant"
      "销售获得积分" (some oid)
  else s2

/-- `settle_order`: resolve the product, check the merchant, enforce the
membership purchase limit, lock and read the user, apply the optional points
discount, create the order, and run the member or normal branch.  The whole
body runs inside `session.begin()`, so an error means rollback: the caller
keeps the input state. -/
def settle_order (s : DBState) (order_no : String) (uid pid quantity : Nat)
    (points_to_use : ℚ) : Except FinErr (DBState × Nat) :=
  match findProduct s pid with
  | none => .error (.orderErr "商品不存在、已下架或无价格信息")
  | some product =>
    match product.price with
    | none => .error (.orderErr "商品不存在、已下架或无价格信息")
    | some unit_price =>
      if product.user_id ≠ PLATFORM_MERCHANT_ID ∧ (findUser s product.user_id).isNone then
        .error (.orderErr "商家不存在")
      else if product.is_member_product ∧ ¬ check_purchase_limit s uid then
        .error (.orderErr "24小时内购买会员商品超过限制（最多2份）")
      else
        match findUser s uid with
        | none => .error (.orderErr "用户不存在")
        | some user =>
          let original_amount := unit_price * quantity
          let step :=
            if ¬ product.is_member_product ∧ points_to_use > 0 then
              (apply_points_discount s uid user.member_points points_to_use original_amount).map
                (fun s' => (s', points_to_use * POINTS_DISCOUNT_RATE,
                            original_amount - points_to_use * POINTS_DISCOUNT_RATE))
            else .ok (s, (0 : ℚ), original_amount)
          match step with
          | .error e => .error e
          | .ok (s1, points_discount, final_amount) =>
            let co := create_order s1 order_no uid product.user_id pid
              final_amount original_amount points_discount product.is_member_product
            let s3 :=
              if product.is_member_product then
                process_member_order co.1 co.2 uid user.member_level unit_price quantity
              else
                process_normal_order co.1 co.2 uid product.user_id final_amount user.member_level
            .ok (s3, co.2)

/-- The conditional reversal of one realized team reward in `refund_order`:
`UPDATE users SET promotion_balance = promotion_balance - X WHERE id = U AND
promotion_balance >= X` (best effort: no-op when the balance is short). -/
def reverseTeamRewardStep (s : DBState) (r : TeamRewardRow) : DBState :=
  updateUserRow s r.user_id (fun u =>
    if u.promotion_balance ≥ r.reward_amount then
      { u with promotion_balance := u.promotion_balance - r.reward_amount }
    else u)

/-- The loop over team-reward rows of the refunded order. -/
def reverseTeamRewards (s : DBState) : List TeamRewardRow → DBState
  | [] => s
  | r :: rs => reverseTeamRewards (reverseTeamRewardStep s r) rs

/-- The membership half of the `refund_order` reversal: best-effort debit of
the referrer's `promotion_balance` (only when it covers the amount), the same
conditional debit for every realized team reward of the order, then the
buyer's `member_points` floored at zero (`GREATEST(member_points - x, 0)`) and
`member_level` decremented with a floor of zero.  None of these UPDATEs writes
an audit row. -/
def memberRefundReversal (s : DBState) (o : OrderRow) : DBState :=
  let reward_amount := o.original_amount * (1/2)
  let sa :=
    match lookupReferrer s.user_referrals o.user_id with
    | some rid =>
      updateUserRow s rid (fun u =>
        if u.promotion_balance ≥ reward_amount then
          { u with promotion_balance := u.promotion_balance - reward_amount }
        else u)
    | none => s
  let sb := reverseTeamRewards sa (sa.team_rewards.filter (fun r => r.order_id == o.id))
  let sc := updateUserRow sb o.user_id (fun u =>
    { u with member_points := max (u.member_points - o.original_amount) 0 })
  updateUserRow sc o.user_id (fun u => { u with member_level := u.member_level - 1 })

/-- The transaction body of `refund_order` (everything inside
`session.begin()`): reject missing or already-refunded orders (the guard reads
`status`), reverse the referral and team rewards and the buyer's points and
level for a membership order, reverse the 80% share from the platform pool or
the merchant balance (with an `InsufficientBalance` precondition check), and
finally set `refund_status = 'refunded'` — the `status` column is untouched. -/
def refund_order_body (s : DBState) (order_no : String) : Except FinErr DBState :=
  match s.orders.find? (fun r => r.order_number == order_no) with
  | none => .error (.financeErr "订单不存在或已退款")
  | some o =>
    if o.status == "refunded" then .error (.financeErr "订单不存在或已退款")
    else
      let s1 := if o.is_member_order then memberRefundReversal s o else s
      let merchant_amount := o.total_amount * (80/100)
      let step : Except FinErr DBState :=
        if o.is_member_order then
          if get_account_balance s1 "platform_revenue_pool" < merchant_amount then
            .error (.insufficientBalance "platform_revenue_pool" merchant_amount
              (get_account_balance s1 "platform_revenue_pool"))
          else
            .ok (add_pool_balance s1 "platform_revenue_pool" (-merchant_amount)
              ("退款 - 订单#" ++ order_no))
        else if o.merchant_id == PLATFORM_MERCHANT_ID then
          .ok (add_pool_balance s1 "platform_revenue_pool" (-merchant_amount)
            ("退款 - 订单#" ++ order_no))
        else
          if get_user_balance s1 o.merchant_id "merchant_balance" < merchant_amount then
            .error (.insufficientBalance ("user:" ++ toString o.merchant_id) merchant_amount
              (get_user_balance s1 o.merchant_id "merchant_balance"))
          else
            .ok (updateUserRow s1 o.merchant_id (fun u =>
              { u with merchant_balance := u.merchant_balance - merchant_amount }))
      match step with
      | .error e => .error e
      | .ok s2 =>
        .ok { s2 with orders := s2.orders.map (fun r =>
          if r.id == o.id then { r with refund_status := "refunded" } else r) }

/-- `refund_order`: the outer `try/except` catches every exception raised in
the transaction body (which `begin()` has already rolled back) and returns
`False`; no exception reaches the caller. -/
def refund_order (s : DBState) (order_no : String) : Bool × DBState :=
  match refund_order_body s order_no with
  | .ok s' => (true, s')
  | .error _ => (false, s)

/-- The per-reward approval body of `audit_and_distribute_rewards`: insert a
coupon, mark the reward `approved`, and record a zero-amount `coupon` flow. -/
def approveRewardStep (s : DBState) (r : PendingRewardRow) : DBState :=
  let cid := s.next_id
  let s1 : DBState := { s with
                        coupons := s.coupons ++ [⟨cid, r.user_id, "user", r.amount⟩],
                        next_id := s.next_id + 1 }
  let s2 : DBState := { s1 with pending_rewards := s1.pending_rewards.map (fun q =>
    if q.id == r.id then { q with status := "approved" } else q) }
  insert_account_flow s2 "coupon" (some r.user_id) 0 "coupon"
    ("奖励发放优惠券#" ++ toString cid)

/-- The approval loop over the selected pending rewards. -/
def approveRewards (s : DBState) : List PendingRewardRow → DBState
  | [] => s
  | r :: rs => approveRewards (approveRewardStep s r) rs

/-- `audit_and_distribute_rewards`: an empty id list or an empty selection of
`pending`-status matches raises `FinanceException`, which the function catches
after rollback, returning `False`.  Approval walks the selected pending rows;
rejection runs a single `UPDATE pending_rewards SET status = 'rejected' WHERE
id IN (ids)` — with no status filter, so every row whose id is listed is
rejected regardless of its current status. -/
def audit_and_distribute_rewards (s : DBState) (reward_ids : List Nat)
    (approve : Bool) : Bool × DBState :=
  if reward_ids.isEmpty then (false, s)
  else
    let rewards := s.pending_rewards.filter (fun r =>
      reward_ids.contains r.id && r.status == "pending")
    if rewards.isEmpty then (false, s)
    else if approve then
      (true, approveRewards s rewards)
    else
      (true, { s with pending_rewards := s.pending_rewards.map (fun r =>
        if reward_ids.contains r.id then { r with status := "rejected" } else r) })

/-- The `remark` written by `_execute_split` for an order (the reversal later
correlates on `remark LIKE '订单分账: <order_number>%'`). -/
def splitRemark (order_number : String) : String :=
  "订单分账: " ++ order_number

/-- The pool table of `_execute_split`/`reverse_split_on_refund` (`pools` and
`pool_mapping` in the source, in dict order): ratios applied to the 20% pool
share. -/
def SPLIT_POOLS : List (String × ℚ) :=
  [("public_welfare", 1/100),
   ("maintain_pool", 1/100),
   ("subsidy_pool", 12/100),
   ("director_pool", 2/100),
   ("shop_pool", 1/100),
   ("city_pool", 1/100),
   ("branch_pool", 5/1000),
   ("fund_pool", 15/1000)]

/-- The `INSERT ... ON DUPLICATE KEY UPDATE` that makes sure a pool account
row exists before `_execute_split` credits it. -/
def ensureAccount (s : DBState) (account_type : String) : DBState :=
  if (s.finance_accounts.find? (fun p => p.1 == account_type)).isSome then s
  else { s with finance_accounts := s.finance_accounts ++ [(account_type, 0)] }

/-- One pool credit of `_execute_split`: ensure the account, add the share,
re-read the balance and append the income flow row. -/
def splitPoolStep (order_number : String) (pool_total : ℚ) (s : DBState)
    (p : String × ℚ) : DBState :=
  let amt := pool_total * p.2
  let s1 := ensureAccount s p.1
  let s2 : DBState :=
    { s1 with finance_accounts :=
        s1.finance_accounts.map (fun q => if q.1 == p.1 then (q.1, q.2 + amt) else q) }
  let balance_after := match s2.finance_accounts.find? (fun q => q.1 == p.1) with
    | some q => q.2
    | none => amt
  { s2 with account_flow := s2.account_flow ++
      [⟨p.1, none, amt, balance_after, "income", splitRemark order_number⟩] }

/-- The pool loop of `_execute_split`. -/
def splitPools (order_number : String) (pool_total : ℚ) (s : DBState) :
    List (String × ℚ) → DBState
  | [] => s
  | p :: ps => splitPools order_number pool_total (splitPoolStep order_number pool_total s p) ps

/-- `_execute_split` (the body of `split_order_funds`): credit 80% of the
total to the merchant row `users.id = 1` with an income flow, then spread the
20% pool share over the eight pools. -/
def execute_split (s : DBState) (order_number : String) (total : ℚ) : DBState :=
  let merchant := total * (8/10)
  let s1 := updateUserRow s 1 (fun u =>
    { u with merchant_balance := u.merchant_balance + merchant })
  let merchant_balance_after := match findUser s1 1 with
    | some u => u.merchant_balance
    | none => merchant
  let s2 : DBState := { s1 with account_flow := s1.account_flow ++
      [⟨"merchant_balance", none, merchant, merchant_balance_after, "income",
        splitRemark order_number⟩] }
  splitPools order_number (total * (2/10)) s2 SPLIT_POOLS

/-- The correlation query of `reverse_split_on_refund`:
`SELECT SUM(change_amount) FROM account_flow WHERE account_type = t AND remark
LIKE '订单分账: <order_number>%' AND flow_type = 'income'`. -/
def splitFlowSum (s : DBState) (account_type order_number : String) : ℚ :=
  (s.account_flow.filter (fun f =>
      f.account_type == account_type &&
      List.isPrefixOf (splitRemark order_number).data f.remark.data &&
      f.flow_type == "income")).foldl (fun a f => a + f.change_amount) 0

/-- The merchant reversal step of `reverse_split_on_refund`: when the summed
split amount is positive, debit the merchant row and append an expense flow
whose remark is `退款回冲: <order_number>`. -/
def reverseMerchantStep (s : DBState) (order_number : String) : DBState :=
  let m := splitFlowSum s "merchant_balance" order_number
  if m > 0 then
    let sa := updateUserRow s 1 (fun u =>
      { u with merchant_balance := u.merchant_balance - m })
    let balance_after := match findUser sa 1 with
      | some u => u.merchant_balance
      | none => 0
    { sa with account_flow := sa.account_flow ++
        [⟨"merchant_balance", none, -m, balance_after, "expense",
          "退款回冲: " ++ order_number⟩] }
  else s

/-- One pool reversal step of `reverse_split_on_refund`. -/
def reversePoolStep (s : DBState) (order_number account_type : String) : DBState :=
  let amt := splitFlowSum s account_type order_number
  if amt > 0 then
    let s1 : DBState :=
      { s with finance_accounts :=
          s.finance_accounts.map (fun q => if q.1 == account_type then (q.1, q.2 - amt) else q) }
    let balance_after := match s1.finance_accounts.find? (fun q => q.1 == account_type) with
      | some q => q.2
      | none => 0
    { s1 with account_flow := s1.account_flow ++
        [⟨account_type, none, -amt, balance_after, "expense",
          "退款回冲: " ++ order_number⟩] }
  else s

/-- The pool loop of `reverse_split_on_refund` over `pool_mapping`. -/
def reversePools (order_number : String) (s : DBState) : List (String × ℚ) → DBState
  | [] => s
  | p :: ps => reversePools order_number (reversePoolStep s order_number p.1) ps

/-- `reverse_split_on_refund`: re-derive the amounts to reverse from the
`account_flow` rows matching `remark LIKE '订单分账: <order_number>%'` with
`flow_type = 'income'`, then debit the merchant row and each pool by those
sums, appending `expense` reversal flows. -/
def reverse_split_on_refund (s : DBState) (order_number : String) : DBState :=
  reversePools order_number (reverseMerchantStep s order_number) SPLIT_POOLS

/-- `set_referrer`: check that the referrer exists, that the user is not
referring themselves, and that the user has no referral edge yet; any check
failing raises `FinanceException`, caught after rollback into a `False`
return.  Only when all three checks pass is the edge inserted. -/
def set_referrer (s : DBState) (user_id referrer_id : Nat) : Bool × DBState :=
  match findUser s referrer_id with
  | none => (false, s)
  | some _ =>
    if user_id == referrer_id then (false, s)
    else if (s.user_referrals.find? (fun r => r.user_id == user_id)).isSome then (false, s)
    else (true, { s with user_referrals := s.user_referrals ++ [⟨user_id, referrer_id⟩] })

/-- Specification-side description of the team-reward walk: the deepest
ancestor reachable within `n` hops of the referral chain (`none` exactly when
the buyer has no referral edge at all or `n = 0`). -/
def deepAncestor (refs : List ReferralRow) : Nat → Nat → Option Nat
  | 0, _ => none
  | n + 1, cur =>
    match lookupReferrer refs cur with
    | none => none
    | some r =>
      match deepAncestor refs n r with
      | some t => some t
      | none => some r

/-- The observable team rewards of a state: recipient, order, amount, layer
and status of every `team`-type pending reward (ids are dropped so that the
auto-increment counter does not matter). -/
def teamRewardsOf (s : DBState) : List (Nat × Nat × ℚ × Option Nat × String) :=
  s.pending_rewards.filterMap (fun r =>
    if r.reward_type == "team" then some (r.user_id, r.order_id, r.amount, r.layer, r.status)
    else none)

/-- The accumulator-passing walk of the source equals the deepest ancestor
within `n` hops, falling back to the accumulator when the walk never moves. -/
theorem walkChain_eq_deepAncestor (refs : List ReferralRow) :
    ∀ (n : Nat) (cur : Nat) (acc : Option Nat),
    walkChain refs n cur acc =
      match deepAncestor refs n cur with
      | some t => some t
      | none => acc := by
  intro n
  induction n with
  | zero => intro cur acc; rfl
  | succ n ih =>
    intro cur acc
    unfold walkChain deepAncestor
    cases h : lookupReferrer refs cur with
    | none => rfl
    | some r =>
      dsimp only
      rw [ih r (some r)]
      cases deepAncestor refs n r <;> rfl

/-- Mapping a keyed update over a list of user rows rewrites the keyed lookup,
provided the update function preserves the id. -/
theorem find?_map_update (uid : Nat) (f : UserRow → UserRow)
    (hf : ∀ u, (f u).id = u.id) :
    ∀ us : List UserRow,
    (us.map (fun u => if u.id == uid then f u else u)).find? (fun u => u.id == uid)
      = (us.find? (fun u => u.id == uid)).map f := by
  intro us
  induction us with
  | nil => rfl
  | cons u us ih =>
    rw [List.map_cons]
    cases hb : (u.id == uid) with
    | true =>
      have hfu : ((f u).id == uid) = true := by rw [hf u]; exact hb
      rw [if_pos rfl]
      simp only [List.find?, hfu, hb]
      rfl
    | false =>
      rw [if_neg (by simp)]
      simp only [List.find?, hb]
      exact ih

/-- Updating a user row by id rewrites the result of looking that row up,
provided the update function preserves the id. -/
theorem findUser_updateUserRow (s : DBState) (uid : Nat) (f : UserRow → UserRow)
    (hf : ∀ u, (f u).id = u.id) :
    findUser (updateUserRow s uid f) uid = (findUser s uid).map f := by
  unfold findUser updateUserRow
  exact find?_map_update uid f hf s.users

/-- Updating a user row leaves every table except `users` unchanged. -/
theorem updateUserRow_preserves (s : DBState) (uid : Nat) (f : UserRow → UserRow) :
    (updateUserRow s uid f).finance_accounts = s.finance_accounts ∧
    (updateUserRow s uid f).account_flow = s.account_flow ∧
    (updateUserRow s uid f).orders = s.orders := by
  unfold updateUserRow
  exact ⟨rfl, rfl, rfl⟩

/-- The team-reward reversal loop of `refund_order` only touches user rows. -/
theorem reverseTeamRewards_preserves (rs : List TeamRewardRow) :
    ∀ s : DBState,
    (reverseTeamRewards s rs).finance_accounts = s.finance_accounts ∧
    (reverseTeamRewards s rs).account_flow = s.account_flow ∧
    (reverseTeamRewards s rs).orders = s.orders := by
  induction rs with
  | nil => intro s; exact ⟨rfl, rfl, rfl⟩
  | cons r rs ih =>
    intro s
    have h := ih (reverseTeamRewardStep s r)
    exact ⟨h.1, h.2.1, h.2.2⟩

/-- State for exercising the points-discount path: user 7 holds 100.0 member
points and the `company_points` pool exists with balance 0. -/
def c1_discount_state : DBState :=
  { users := [⟨7, 0, 100, 0, 0, 0⟩],
    products := [], orders := [], order_items := [],
    finance_accounts := [("company_points", 0)],
    user_referrals := [], pending_rewards := [], team_rewards := [],
    account_flow := [], points_log := [], coupons := [], next_id := 1, now := 0 }

/-- State for exercising the refund-time points deduction: user 7 (level 3,
100.0 member points) holds a completed ¥100 membership order `M1`; the
platform pool can cover the 80% reversal. -/
def c1_refund_state : DBState :=
  { users := [⟨7, 3, 100, 0, 0, 0⟩],
    products := [], orders := [⟨1, "M1", 7, 1, 100, 100, 0, true, "completed", "", 0⟩],
    order_items := [],
    finance_accounts := [("platform_revenue_pool", 100)],
    user_referrals := [], pending_rewards := [], team_rewards := [],
    account_flow := [], points_log := [], coupons := [], next_id := 2, now := 0 }

/-- C1: the points-discount debit of `member_points` (with its matching
`company_points` credit) and the refund-time `member_points` deduction write
no audit row at all — not the exactly-one row the invariant demands.  Using 10
points on a ¥100 order moves both balances (100 → 90 member points, 0 → 10
company points) yet leaves `points_log` and `account_flow` empty, and the
refund of order `M1` zeroes the buyer's 100 member points with an empty
`points_log`. -/
theorem points_discount_and_refund_write_no_audit_rows :
    ((apply_points_discount c1_discount_state 7 100 10 100).map (fun s' =>
        (s'.points_log, s'.account_flow,
         get_user_balance s' 7 "member_points", get_account_balance s' "company_points"))
      = .ok ([], [], 90, 10))
    ∧ (refund_order c1_refund_state "M1").1 = true
    ∧ (refund_order c1_refund_state "M1").2.points_log = []
    ∧ get_user_balance (refund_order c1_refund_state "M1").2 7 "member_points" = 0 := by
  decide

/-- State for a normal (non-membership) ¥100 order sold by merchant 2, who is
not the platform (`PLATFORM_MERCHANT_ID = 1`); user 3 is the buyer. -/
def c2_state : DBState :=
  { users := [⟨2, 0, 0, 0, 0, 0⟩, ⟨3, 0, 0, 0, 0, 0⟩],
    products := [⟨1, 1, false, 2, some 100⟩],
    orders := [], order_items := [], finance_accounts := [],
    user_referrals := [], pending_rewards := [], team_rewards := [],
    account_flow := [], points_log := [], coupons := [], next_id := 1, now := 0 }

/-- C2: settling a normal order of a non-platform merchant credits the
merchant nothing: the 80% `merchant_balance` credit is commented out in
`_process_normal_order`, so after settling the ¥100 order the merchant's
balance is still 0 (not 80), no `account_flow` row exists at all, and
`merchant_share + Σ(pool_allocations) = 0 ≠ 0.80 × final_amount`.  (The 20%
`merchant_points` grant does still run.) -/
theorem normal_order_merchant_credit_missing :
    (settle_order c2_state "N1" 3 1 1 0).map (fun p =>
        (get_user_balance p.1 2 "merchant_balance", p.1.account_flow,
         get_user_balance p.1 2 "merchant_points"))
      = .ok (0, [], 20) := by
  decide

/-- State for a completed normal ¥100 platform order `D1` (merchant is the
platform), with ¥100 in the platform revenue pool. -/
def c3_state : DBState :=
  { users := [⟨5, 0, 0, 0, 0, 0⟩],
    products := [], orders := [⟨1, "D1", 5, 1, 100, 100, 0, false, "completed", "", 0⟩],
    order_items := [],
    finance_accounts := [("platform_revenue_pool", 100)],
    user_referrals := [], pending_rewards := [], team_rewards := [],
    account_flow := [], points_log := [], coupons := [], next_id := 2, now := 0 }

/-- C3: a successful refund does not flip the order's `status` (the success
path updates the separate `refund_status` column while the guard reads
`status`), so refunding `D1` twice succeeds twice and reverses the 80% share
twice: the pool drops from 100 to 20 and then to −60 instead of the second
call being rejected. -/
theorem refund_order_double_refund_not_rejected :
    (refund_order c3_state "D1").1 = true
    ∧ ((refund_order c3_state "D1").2.orders.find? (fun o => o.order_number == "D1")).map
        (fun o => (o.status, o.refund_status)) = some ("completed", "refunded")
    ∧ get_account_balance (refund_order c3_state "D1").2 "platform_revenue_pool" = 20
    ∧ (refund_order (refund_order c3_state "D1").2 "D1").1 = true
    ∧ get_account_balance (refund_order (refund_order c3_state "D1").2 "D1").2
        "platform_revenue_pool" = -60 := by
  decide

/-- State for the purchase-limit scenario: user 9 already has two completed
membership orders (`A`, `B`) inside the trailing 24 hours, and the membership
product 1 is on sale. -/
def c8_state : DBState :=
  { users := [⟨9, 2, 200, 0, 0, 0⟩],
    products := [⟨1, 1, true, 1, some 100⟩],
    orders := [⟨1, "A", 9, 1, 100, 100, 0, true, "completed", "", 0⟩,
               ⟨2, "B", 9, 1, 100, 100, 0, true, "completed", "", 0⟩],
    order_items := [],
    finance_accounts := [("platform_revenue_pool", 1000)],
    user_referrals := [], pending_rewards := [], team_rewards := [],
    account_flow := [], points_log := [], coupons := [], next_id := 3, now := 0 }

/-- C8: an order refunded via `refund_order` keeps counting toward the
24-hour membership purchase limit, because the refund writes
`refund_status = 'refunded'` while `check_purchase_limit` filters on
`status != 'refunded'`.  After successfully refunding order `A` the user's
window count is still 2, so a third membership purchase is still rejected with
the rate-limit error — the claim says the refunded order should no longer
count. -/
theorem refunded_order_still_counts_toward_limit :
    (refund_order c8_state "A").1 = true
    ∧ ((refund_order c8_state "A").2.orders.find? (fun o => o.order_number == "A")).map
        (fun o => o.refund_status) = some "refunded"
    ∧ check_purchase_limit (refund_order c8_state "A").2 9 = false
    ∧ settle_order (refund_order c8_state "A").2 "C" 9 1 1 0
        = .error (.orderErr "24小时内购买会员商品超过限制（最多2份）") := by
  decide

/-- State for the team-reward walk: buyer 10 (old level 1) has exactly one
referrer, user 20 (level 6), and user 20 has no referrer, so the chain ends at
depth 1. -/
def c4_cex_state : DBState :=
  { users := [⟨10, 1, 0, 0, 0, 0⟩, ⟨20, 6, 0, 0, 0, 0⟩],
    products := [], orders := [], order_items := [], finance_accounts := [],
    user_referrals := [⟨10, 20⟩], pending_rewards := [], team_rewards := [],
    account_flow := [], points_log := [], coupons := [], next_id := 1, now := 0 }

/-- C4 counterexample: with `new_level = 3` and a referral chain of depth 1,
the claim says no team reward is created (the chain runs out before depth 3),
but `_create_pending_rewards` keeps the deepest referrer reached and creates a
`team` reward with `layer = 3` for user 20, who sits only one hop up. -/
theorem team_reward_created_despite_short_chain :
    (create_pending_rewards c4_cex_state 1 10 1 3).pending_rewards
      = [⟨1, 20, "team", 50, 1, some 3, "pending"⟩]
    ∧ lookupReferrer c4_cex_state.user_referrals 20 = none := by
  decide

/-- State with a single merchant row `users.id = 1` and no pool accounts
(`_execute_split` creates the pool rows itself). -/
def c5_base : DBState :=
  { users := [⟨1, 0, 0, 0, 0, 0⟩],
    products := [], orders := [], order_items := [], finance_accounts := [],
    user_referrals := [], pending_rewards := [], team_rewards := [],
    account_flow := [], points_log := [], coupons := [], next_id := 1, now := 0 }

/-- The state after splitting a ¥100 order `A`: the merchant holds 80 and the
pools their shares. -/
def c5_split : DBState := execute_split c5_base "A" 100

/-- The state after the split of order `A` has been reversed once. -/
def c5_reversed : DBState := reverse_split_on_refund c5_split "A"

/-- C5 counterexample: `reverse_split_on_refund` is not idempotent.  The
reversal leaves the original `订单分账` income flows in place and its own
rows do not match the correlation query, so a second call on the
already-reversed order `A` debits the merchant again (0 → −80) and the pools
again (e.g. `subsidy_pool` 0 → −2.4). -/
theorem reverse_split_second_call_mutates :
    get_user_balance c5_reversed 1 "merchant_balance" = 0
    ∧ get_user_balance (reverse_split_on_refund c5_reversed "A") 1 "merchant_balance" = -80
    ∧ get_account_balance c5_reversed "subsidy_pool" = 0
    ∧ get_account_balance (reverse_split_on_refund c5_reversed "A") "subsidy_pool" = -12/5 := by
  decide

/-- State with one already-approved reward (id 1) and one pending reward
(id 2). -/
def c6_state : DBState :=
  { users := [], products := [], orders := [], order_items := [], finance_accounts := [],
    user_referrals := [],
    pending_rewards := [⟨1, 4, "referral", 50, 1, none, "approved"⟩,
                        ⟨2, 5, "referral", 50, 2, none, "pending"⟩],
    team_rewards := [], account_flow := [], points_log := [], coupons := [],
    next_id := 3, now := 0 }

/-- C6 counterexample: rejecting ids `[1, 2]` does not leave the
already-approved reward 1 untouched.  Because the reject `UPDATE` filters only
on id, reward 1 is flipped from `approved` to `rejected` alongside the pending
reward 2. -/
theorem audit_reject_flips_approved_reward :
    (audit_and_distribute_rewards c6_state [1, 2] false).1 = true
    ∧ (audit_and_distribute_rewards c6_state [1, 2] false).2.pending_rewards.map
        (fun r => (r.id, r.status)) = [(1, "rejected"), (2, "rejected")] := by
  decide

/-- State for the refund-insufficiency scenario: a completed ¥100 membership
order `R1` while the platform revenue pool holds only ¥30 (< the ¥80
reversal). -/
def c9_state : DBState :=
  { users := [⟨6, 1, 50, 0, 0, 0⟩],
    products := [], orders := [⟨1, "R1", 6, 1, 100, 100, 0, true, "completed", "", 0⟩],
    order_items := [],
    finance_accounts := [("platform_revenue_pool", 30)],
    user_referrals := [], pending_rewards := [], team_rewards := [],
    account_flow := [], points_log := [], coupons := [], next_id := 2, now := 0 }

/-- State for the unchecked platform-merchant branch: a completed ¥100
non-membership order `P1` sold by the platform itself, while the platform
revenue pool holds only ¥20 (< the ¥80 reversal). -/
def c9_plat_state : DBState :=
  { users := [⟨6, 0, 0, 0, 0, 0⟩],
    products := [], orders := [⟨1, "P1", 6, 1, 100, 100, 0, false, "completed", "", 0⟩],
    order_items := [],
    finance_accounts := [("platform_revenue_pool", 20)],
    user_referrals := [], pending_rewards := [], team_rewards := [],
    account_flow := [], points_log := [], coupons := [], next_id := 2, now := 0 }

/-- C9 counterexample, refuting the claim on both of its points.  For the
membership order `R1` the transaction body does raise `InsufficientBalance`,
but `refund_order` catches it and returns `False` — the caller sees a normal
return, not a raised exception.  And for the non-membership platform-merchant
order `P1` the claim's "platform_revenue_pool … cannot cover the reversal"
case is never even checked: the refund succeeds, the order is marked
refunded, and the pool is driven negative (20 → −60). -/
theorem refund_insufficiency_not_raised_to_caller :
    (refund_order_body c9_state "R1"
      = .error (.insufficientBalance "platform_revenue_pool" 80 30)
     ∧ refund_order c9_state "R1" = (false, c9_state))
    ∧ ((refund_order c9_plat_state "P1").1 = true
       ∧ get_account_balance (refund_order c9_plat_state "P1").2 "platform_revenue_pool" = -60
       ∧ ((refund_order c9_plat_state "P1").2.orders.find? (fun r => r.order_number == "P1")).map
           (fun r => r.refund_status) = some "refunded") := by
  decide

/-- C10: `set_referrer` never creates a self-referral edge and never
overwrites an existing edge: the call fails (returns `False`, state unchanged)
exactly when the referrer row is missing, the user refers to themselves, or
the user already has a referral edge; only when all three checks pass is the
single edge `(user_id, referrer_id)` inserted. -/
theorem set_referrer_checks_spec (s : DBState) (u r : Nat) :
    set_referrer s u r =
      if (findUser s r).isNone ∨ u = r ∨ (s.user_referrals.find? (fun x => x.user_id == u)).isSome
      then (false, s)
      else (true, { s with user_referrals := s.user_referrals ++ [⟨u, r⟩] }) := by
  unfold set_referrer
  cases hf : findUser s r with
  | none => simp
  | some w =>
    by_cases hur : u = r
    · simp [hur]
    · by_cases hs : (s.user_referrals.find? (fun x => x.user_id == u)).isSome
      · simp [hur, hs]
      · simp [hur, hs]

/-- The walk with an empty accumulator is exactly the deepest ancestor within
`n` hops. -/
theorem walkChain_none (refs : List ReferralRow) (n cur : Nat) :
    walkChain refs n cur none = deepAncestor refs n cur := by
  rw [walkChain_eq_deepAncestor]
  cases deepAncestor refs n cur <;> rfl

/-- `findUser` only reads the `users` table. -/
theorem findUser_congr (s' s : DBState) (h : s'.users = s.users) (uid : Nat) :
    findUser s' uid = findUser s uid := by
  unfold findUser
  rw [h]

/-- The referral half of `_create_pending_rewards` does not change the
referral edges, the user rows, or the observable team rewards. -/
theorem referralRewardPart_fields (s : DBState) (oid buyer old_level : Nat) :
    (referralRewardPart s oid buyer old_level).user_referrals = s.user_referrals
    ∧ (referralRewardPart s oid buyer old_level).users = s.users
    ∧ teamRewardsOf (referralRewardPart s oid buyer old_level) = teamRewardsOf s := by
  unfold referralRewardPart
  split
  · cases h : lookupReferrer s.user_referrals buyer with
    | none => exact ⟨rfl, rfl, rfl⟩
    | some rid =>
      refine ⟨rfl, rfl, ?_⟩
      simp [teamRewardsOf, List.filterMap_append]
  · exact ⟨rfl, rfl, rfl⟩

/-- The team half of `_create_pending_rewards` appends exactly the team reward
of the deepest referrer reached within `new_level` hops, when that referrer
qualifies. -/
theorem teamRewardPart_spec (s1 : DBState) (oid buyer new_level : Nat) :
    teamRewardsOf (teamRewardPart s1 oid buyer new_level) =
      teamRewardsOf s1 ++
      (match deepAncestor s1.user_referrals new_level buyer with
       | none => []
       | some t =>
         if (match findUser s1 t with | some u => u.member_level | none => 0) ≥ new_level
         then [(t, oid, MEMBER_PRODUCT_PRICE * (1/2), some new_level, "pending")]
         else []) := by
  unfold teamRewardPart
  rw [walkChain_none]
  cases hda : deepAncestor s1.user_referrals new_level buyer with
  | none => simp
  | some t =>
    dsimp only
    split
    · simp [teamRewardsOf, List.filterMap_append]
    · simp

/-- C4 (amended): outside the 0→1 special case, the team reward goes to the
deepest referrer found within `new_level` hops — which is the user exactly
`new_level` hops up only when the chain is that long; when the chain ends
earlier the reward goes to the shallower last referrer (with `layer` still set
to `new_level`), and only a buyer with no referrer at all yields no team
reward.  The reward is created iff that recipient's own `member_level` is at
least `new_level`. -/
theorem create_pending_rewards_team_target (s : DBState)
    (oid buyer old_level new_level : Nat) (h : ¬(old_level = 0 ∧ new_level = 1)) :
    teamRewardsOf (create_pending_rewards s oid buyer old_level new_level) =
      teamRewardsOf s ++
      (match deepAncestor s.user_referrals new_level buyer with
       | none => []
       | some t =>
         if (match findUser s t with | some u => u.member_level | none => 0) ≥ new_level
         then [(t, oid, MEMBER_PRODUCT_PRICE * (1/2), some new_level, "pending")]
         else []) := by
  have hb : (old_level == 0 && new_level == 1) = false := by
    cases ho : (old_level == 0) <;> cases hn : (new_level == 1) <;> simp_all
  unfold create_pending_rewards
  rw [hb]
  simp only [Bool.false_eq_true, if_false]
  obtain ⟨h1, h2, h3⟩ := referralRewardPart_fields s oid buyer old_level
  rw [teamRewardPart_spec, h1, h3]
  have hfc : ∀ uid, findUser (referralRewardPart s oid buyer old_level) uid = findUser s uid :=
    fun uid => findUser_congr _ _ h2 uid
  simp only [hfc]

/-- `get_user_balance` only reads the `users` table. -/
theorem get_user_balance_congr (s' s : DBState) (h : s'.users = s.users)
    (uid : Nat) (field : String) :
    get_user_balance s' uid field = get_user_balance s uid field := by
  unfold get_user_balance
  rw [findUser_congr s' s h]

/-- `get_account_balance` only reads the `finance_accounts` table. -/
theorem get_account_balance_congr (s' s : DBState)
    (h : s'.finance_accounts = s.finance_accounts) (t : String) :
    get_account_balance s' t = get_account_balance s t := by
  unfold get_account_balance
  rw [h]

/-- A pool reversal step never touches the `users` table. -/
theorem reversePoolStep_users (s : DBState) (ono t : String) :
    (reversePoolStep s ono t).users = s.users := by
  unfold reversePoolStep
  dsimp only
  split
  · rfl
  · rfl

/-- The pool reversal loop never touches the `users` table. -/
theorem reversePools_users (ono : String) :
    ∀ (l : List (String × ℚ)) (s : DBState), (reversePools ono s l).users = s.users := by
  intro l
  induction l with
  | nil => intro s; rfl
  | cons p ps ih =>
    intro s
    exact (ih (reversePoolStep s ono p.1)).trans (reversePoolStep_users s ono p.1)

/-- A pool reversal step appends only an `expense` flow row, so the sums over
matching `income` split rows are untouched. -/
theorem splitFlowSum_reversePoolStep (s : DBState) (ono t ty ono2 : String) :
    splitFlowSum (reversePoolStep s ono t) ty ono2 = splitFlowSum s ty ono2 := by
  have hexp : (("expense" : String) == "income") = false := rfl
  unfold reversePoolStep
  dsimp only
  split
  · simp [splitFlowSum, List.filter_append, hexp]
  · rfl

/-- The pool reversal loop leaves the matching `income` split sums
untouched. -/
theorem splitFlowSum_reversePools (ono ty ono2 : String) :
    ∀ (l : List (String × ℚ)) (s : DBState),
    splitFlowSum (reversePools ono s l) ty ono2 = splitFlowSum s ty ono2 := by
  intro l
  induction l with
  | nil => intro s; rfl
  | cons p ps ih =>
    intro s
    exact (ih (reversePoolStep s ono p.1)).trans (splitFlowSum_reversePoolStep s ono p.1 ty ono2)

/-- The merchant reversal step appends only an `expense` flow row, so the
matching `income` split sums are untouched. -/
theorem splitFlowSum_reverseMerchantStep (s : DBState) (ono ty ono2 : String) :
    splitFlowSum (reverseMerchantStep s ono) ty ono2 = splitFlowSum s ty ono2 := by
  have hexp : (("expense" : String) == "income") = false := rfl
  unfold reverseMerchantStep
  dsimp only
  split
  · simp [splitFlowSum, List.filter_append, hexp, updateUserRow]
  · rfl

/-- When the matching split sum is positive, the merchant reversal step debits
the merchant row `users.id = 1` by exactly that sum. -/
theorem reverseMerchantStep_balance (s : DBState) (ono : String) (u : UserRow)
    (hu : findUser s 1 = some u)
    (hm : 0 < splitFlowSum s "merchant_balance" ono) :
    get_user_balance (reverseMerchantStep s ono) 1 "merchant_balance"
      = u.merchant_balance - splitFlowSum s "merchant_balance" ono := by
  unfold reverseMerchantStep
  dsimp only
  split
  · refine Eq.trans (get_user_balance_congr _
      (updateUserRow s 1 (fun v =>
        { v with merchant_balance := v.merchant_balance - splitFlowSum s "merchant_balance" ono }))
      rfl 1 "merchant_balance") ?_
    unfold get_user_balance
    rw [findUser_updateUserRow s 1 (fun v =>
      { v with merchant_balance := v.merchant_balance - splitFlowSum s "merchant_balance" ono })
      (fun v => rfl), hu]
    rfl
  · next hc => exact absurd hm hc

/-- C5 (amended): `reverse_split_on_refund` is not idempotent.  Whenever the
`account_flow` correlation query finds a positive split sum `m` for the order,
the call debits the merchant row by `m` — and because the reversal only
appends `expense` rows that the correlation query ignores, the matching sum is
the same afterwards, so a repeated call debits the same amount again.  The
call is a no-op only when no matching split flow exists (sum ≤ 0). -/
theorem reverse_split_redebits (s : DBState) (ono : String) (u : UserRow)
    (hu : findUser s 1 = some u)
    (hm : 0 < splitFlowSum s "merchant_balance" ono) :
    get_user_balance (reverse_split_on_refund s ono) 1 "merchant_balance"
      = get_user_balance s 1 "merchant_balance" - splitFlowSum s "merchant_balance" ono
    ∧ splitFlowSum (reverse_split_on_refund s ono) "merchant_balance" ono
      = splitFlowSum s "merchant_balance" ono := by
  have hs : get_user_balance s 1 "merchant_balance" = u.merchant_balance := by
    unfold get_user_balance
    rw [hu]
    rfl
  constructor
  · unfold reverse_split_on_refund
    rw [get_user_balance_congr _ (reverseMerchantStep s ono)
      (reversePools_users ono SPLIT_POOLS (reverseMerchantStep s ono)) 1 "merchant_balance"]
    rw [reverseMerchantStep_balance s ono u hu hm, hs]
  · unfold reverse_split_on_refund
    rw [splitFlowSum_reversePools ono "merchant_balance" ono SPLIT_POOLS (reverseMerchantStep s ono)]
    exact splitFlowSum_reverseMerchantStep s ono "merchant_balance" ono

/-- C6 (amended): with `approve = False`, if none of the given ids is in
`pending` status (or the id list is empty) the call fails and changes
nothing; otherwise every pending-reward row whose id is listed — including
rows already `approved` or `rejected` — is set to `rejected`, while coupons,
user balances and pool balances are untouched. -/
theorem audit_reject_rejects_all_listed_ids (s : DBState) (ids : List Nat)
    (h : (s.pending_rewards.filter (fun r => ids.contains r.id && r.status == "pending")) ≠ []) :
    audit_and_distribute_rewards s ids false =
      (true, { s with pending_rewards := s.pending_rewards.map (fun r =>
          if ids.contains r.id then { r with status := "rejected" } else r) }) := by
  have hne : ids.isEmpty = false := by
    cases ids with
    | nil => exact absurd (by simp) h
    | cons a l => rfl
  have h2 : (s.pending_rewards.filter (fun r => ids.contains r.id && r.status == "pending")).isEmpty = false := by
    cases hl : s.pending_rewards.filter (fun r => ids.contains r.id && r.status == "pending") with
    | nil => exact absurd hl h
    | cons x xs => rfl
  unfold audit_and_distribute_rewards
  rw [hne]
  dsimp only
  rw [h2]
  simp

/-- The membership half of `refund_order`'s reversal only touches user rows —
in particular the pool balances it later checks are unchanged. -/
theorem memberRefundReversal_finance (s : DBState) (o : OrderRow) :
    (memberRefundReversal s o).finance_accounts = s.finance_accounts := by
  unfold memberRefundReversal
  dsimp only
  cases h : lookupReferrer s.user_referrals o.user_id with
  | none => exact (reverseTeamRewards_preserves _ _).1
  | some rid => exact (reverseTeamRewards_preserves _ _).1

/-- C9 (amended): the reversal-coverage precondition exists only on two of
the three refund branches.  For a membership order the platform revenue pool
is checked, and for a non-platform merchant the merchant's balance is
checked: in those cases the transaction body raises `InsufficientBalance`,
the rollback discards every reversal step, the order is left unmarked — but
`refund_order` swallows the exception and returns `False` to its caller with
the state unchanged, instead of propagating it.  For a non-membership order
whose merchant is the platform, the pool is debited with no check at all: the
refund succeeds regardless of the pool balance (which may go negative). -/
theorem refund_reversal_insufficiency_behaviour (s : DBState) (ono : String) (o : OrderRow)
    (hfind : s.orders.find? (fun r => r.order_number == ono) = some o)
    (hstat : (o.status == "refunded") = false) :
    (o.is_member_order = true →
      get_account_balance s "platform_revenue_pool" < o.total_amount * (80/100) →
      refund_order s ono = (false, s))
    ∧ (o.is_member_order = false → (o.merchant_id == PLATFORM_MERCHANT_ID) = false →
      get_user_balance s o.merchant_id "merchant_balance" < o.total_amount * (80/100) →
      refund_order s ono = (false, s))
    ∧ (o.is_member_order = false → (o.merchant_id == PLATFORM_MERCHANT_ID) = true →
      (refund_order s ono).1 = true) := by
  refine ⟨?_, ?_, ?_⟩
  · intro hmem hbal
    have hgab : get_account_balance (memberRefundReversal s o) "platform_revenue_pool"
        = get_account_balance s "platform_revenue_pool" :=
      get_account_balance_congr _ _ (memberRefundReversal_finance s o) _
    unfold refund_order refund_order_body
    simp only [hfind]
    rw [hstat, hmem]
    simp only [eq_self_iff_true, if_true, Bool.false_eq_true, if_false]
    rw [hgab, if_pos hbal]
  · intro hmem hplat hbal
    unfold refund_order refund_order_body
    simp only [hfind]
    rw [hstat, hmem, hplat]
    simp only [Bool.false_eq_true, if_false]
    rw [if_pos hbal]
  · intro hmem hplat
    unfold refund_order refund_order_body
    simp only [hfind]
    rw [hstat, hmem, hplat]
    simp only [Bool.false_eq_true, if_false, eq_self_iff_true, if_true]

/-- The points-discount validation of `_apply_points_discount` fails with an
`OrderException` whenever the user's points are insufficient or the requested
discount would exceed half the pre-discount amount. -/
theorem apply_points_discount_err (s : DBState) (uid : Nat)
    (user_points points_to_use amount : ℚ)
    (h : user_points < points_to_use
         ∨ points_to_use * POINTS_DISCOUNT_RATE > amount * (1/2)) :
    ∃ msg, apply_points_discount s uid user_points points_to_use amount
      = .error (.orderErr msg) := by
  unfold apply_points_discount
  by_cases h1 : user_points < points_to_use
  · rw [if_pos h1]
    exact ⟨_, rfl⟩
  · rw [if_neg h1]
    have hR : (0:ℚ) < POINTS_DISCOUNT_RATE := by norm_num [POINTS_DISCOUNT_RATE]
    have h2 : points_to_use > amount * (1/2) / POINTS_DISCOUNT_RATE := by
      rcases h with h | h
      · exact absurd h h1
      · exact (div_lt_iff₀ hR).mpr h
    rw [if_pos h2]
    exact ⟨_, rfl⟩

/-- C7: settling a resolvable, listed, non-membership product with
`points_to_use > 0` fails with a validation `OrderException` whenever the
user's `member_points` are insufficient or the discount
(`points_to_use × POINTS_DISCOUNT_RATE`) would exceed half the pre-discount
amount.  The error is raised before the order insert and before any balance
UPDATE, and `session.begin()` rolls the transaction back, so the caller keeps
the input state: no balance, points field or order row changes. -/
theorem settle_order_points_discount_validation (s : DBState) (order_no : String)
    (uid pid quantity : Nat) (points_to_use : ℚ) (p : ProductRow) (price : ℚ) (u : UserRow)
    (hp : findProduct s pid = some p)
    (hprice : p.price = some price)
    (hnm : p.is_member_product = false)
    (hm : p.user_id = PLATFORM_MERCHANT_ID ∨ (findUser s p.user_id).isSome)
    (hu : findUser s uid = some u)
    (hpts : points_to_use > 0)
    (hviol : u.member_points < points_to_use
             ∨ points_to_use * POINTS_DISCOUNT_RATE > price * quantity * (1/2)) :
    ∃ msg, settle_order s order_no uid pid quantity points_to_use
      = .error (.orderErr msg) := by
  obtain ⟨msg, hmsg⟩ :=
    apply_points_discount_err s uid u.member_points points_to_use (price * quantity) hviol
  refine ⟨msg, ?_⟩
  have hmc : ¬(p.user_id ≠ PLATFORM_MERCHANT_ID ∧ (findUser s p.user_id).isNone = true) := by
    rcases hm with h | h
    · intro hc
      exact hc.1 h
    · intro hc
      rw [Option.isNone_iff_eq_none] at hc
      rw [hc.2] at h
      simp at h
  have hmm : ¬(p.is_member_product = true ∧ ¬ check_purchase_limit s uid = true) := by
    simp [hnm]
  have hdc : (¬ p.is_member_product = true ∧ points_to_use > 0) := by
    simp [hnm, hpts]
  unfold settle_order
  rw [hp]
  dsimp only
  rw [hprice]
  dsimp only
  rw [if_neg hmc, if_neg hmm, hu]
  dsimp only
  rw [if_pos hdc, hmsg]
  rfl

/-- State with a two-hop referral chain 10 → 20 → 30 where user 30 (level 5)
sits exactly two hops up. -/
def c4_wit_state : DBState :=
  { users := [⟨10, 1, 0, 0, 0, 0⟩, ⟨20, 1, 0, 0, 0, 0⟩, ⟨30, 5, 0, 0, 0, 0⟩],
    products := [], orders := [], order_items := [], finance_accounts := [],
    user_referrals := [⟨10, 20⟩, ⟨20, 30⟩], pending_rewards := [], team_rewards := [],
    account_flow := [], points_log := [], coupons := [], next_id := 1, now := 0 }

/-- Witness for the amended team-reward statement at a concrete input:
old level 1, new level 2, chain deep enough, recipient user 30. -/
theorem create_pending_rewards_team_target_witness :
    ¬((1 : Nat) = 0 ∧ (2 : Nat) = 1)
    ∧ teamRewardsOf (create_pending_rewards c4_wit_state 1 10 1 2) =
        teamRewardsOf c4_wit_state ++
        (match deepAncestor c4_wit_state.user_referrals 2 10 with
         | none => []
         | some t =>
           if (match findUser c4_wit_state t with | some u => u.member_level | none => 0) ≥ 2
           then [(t, 1, MEMBER_PRODUCT_PRICE * (1/2), some 2, "pending")]
           else []) :=
  ⟨by decide, create_pending_rewards_team_target c4_wit_state 1 10 1 2 (by decide)⟩

/-- Witness for the re-debit statement at the concrete split state of order
`A`: the matching sum is 80 > 0 and the merchant row exists. -/
theorem reverse_split_redebits_witness :
    findUser c5_split 1 = some ⟨1, 0, 0, 0, 80, 0⟩
    ∧ 0 < splitFlowSum c5_split "merchant_balance" "A"
    ∧ (get_user_balance (reverse_split_on_refund c5_split "A") 1 "merchant_balance"
         = get_user_balance c5_split 1 "merchant_balance"
           - splitFlowSum c5_split "merchant_balance" "A"
       ∧ splitFlowSum (reverse_split_on_refund c5_split "A") "merchant_balance" "A"
         = splitFlowSum c5_split "merchant_balance" "A") :=
  ⟨by decide, by decide,
   reverse_split_redebits c5_split "A" ⟨1, 0, 0, 0, 80, 0⟩ (by decide) (by decide)⟩

/-- Witness for the bulk-reject statement at the concrete two-reward state:
the selection of pending matches is non-empty and both listed rows are
rejected. -/
theorem audit_reject_rejects_all_listed_ids_witness :
    (c6_state.pending_rewards.filter (fun r => [1, 2].contains r.id && r.status == "pending")) ≠ []
    ∧ audit_and_distribute_rewards c6_state [1, 2] false =
        (true, { c6_state with pending_rewards := c6_state.pending_rewards.map (fun r =>
            if [1, 2].contains r.id then { r with status := "rejected" } else r) }) :=
  ⟨by decide, audit_reject_rejects_all_listed_ids c6_state [1, 2] (by decide)⟩

/-- State for the points-discount validation witness: user 3 holds only 5.0
member points; product 1 is a listed non-membership platform product priced
¥100. -/
def c7_state : DBState :=
  { users := [⟨3, 0, 5, 0, 0, 0⟩],
    products := [⟨1, 1, false, 1, some 100⟩],
    orders := [], order_items := [], finance_accounts := [],
    user_referrals := [], pending_rewards := [], team_rewards := [],
    account_flow := [], points_log := [], coupons := [], next_id := 1, now := 0 }

/-- Witness for the points-discount validation at a concrete input: the user
holds 5 points but asks to use 10, so settlement fails with an
`OrderException`. -/
theorem settle_order_points_discount_validation_witness :
    findProduct c7_state 1 = some ⟨1, 1, false, 1, some 100⟩
    ∧ (10 : ℚ) > 0
    ∧ (⟨3, 0, 5, 0, 0, 0⟩ : UserRow).member_points < (10 : ℚ)
    ∧ (∃ msg, settle_order c7_state "X" 3 1 1 10 = .error (.orderErr msg)) :=
  ⟨by decide, by decide, by decide,
   settle_order_points_discount_validation c7_state "X" 3 1 1 10
     ⟨1, 1, false, 1, some 100⟩ 100 ⟨3, 0, 5, 0, 0, 0⟩
     (by decide) (by decide) (by decide) (Or.inl (by decide)) (by decide) (by decide)
     (Or.inl (by decide))⟩

/-- State for the merchant-balance branch of the C9 witness: a completed
¥100 non-membership order `M2` of merchant 2 (≠ platform), whose
`merchant_balance` of ¥10 cannot cover the ¥80 reversal. -/
def c9_merch_state : DBState :=
  { users := [⟨2, 0, 0, 0, 10, 0⟩, ⟨5, 0, 0, 0, 0, 0⟩],
    products := [], orders := [⟨1, "M2", 5, 2, 100, 100, 0, false, "completed", "", 0⟩],
    order_items := [],
    finance_accounts := [],
    user_referrals := [], pending_rewards := [], team_rewards := [],
    account_flow := [], points_log := [], coupons := [], next_id := 2, now := 0 }

/-- Witness for the three refund-insufficiency branches at concrete states:
the membership order `R1` (pool 30 < 80) and the non-platform merchant order
`M2` (balance 10 < 80) end in a swallowed failure with the state unchanged,
while the platform-merchant order `P1` is refunded with no coverage check. -/
theorem refund_reversal_insufficiency_behaviour_witness :
    (get_account_balance c9_state "platform_revenue_pool" < (100 : ℚ) * (80/100)
     ∧ refund_order c9_state "R1" = (false, c9_state))
    ∧ (get_user_balance c9_merch_state 2 "merchant_balance" < (100 : ℚ) * (80/100)
       ∧ refund_order c9_merch_state "M2" = (false, c9_merch_state))
    ∧ (refund_order c9_plat_state "P1").1 = true :=
  ⟨⟨by decide,
    (refund_reversal_insufficiency_behaviour c9_state "R1"
      ⟨1, "R1", 6, 1, 100, 100, 0, true, "completed", "", 0⟩
      (by decide) (by decide)).1 (by decide) (by decide)⟩,
   ⟨by decide,
    (refund_reversal_insufficiency_behaviour c9_merch_state "M2"
      ⟨1, "M2", 5, 2, 100, 100, 0, false, "completed", "", 0⟩
      (by decide) (by decide)).2.1 (by decide) (by decide) (by decide)⟩,
   (refund_reversal_insufficiency_behaviour c9_plat_state "P1"
      ⟨1, "P1", 6, 1, 100, 100, 0, false, "completed", "", 0⟩
      (by decide) (by decide)).2.2 (by decide) (by decide)⟩
